import Mathlib

/-!
Shallow embedding of `tools/emulator/system/camera/EmulatedCameraDevice.cpp`
(Android emulated camera device: device state machine, frame-buffer lifecycle,
and the worker-thread control/readiness protocol).

Status codes are POSIX-style integers; machine `int` arithmetic is modelled
with unbounded naturals (exact whenever the C `int` computation does not
overflow). Operating-system interactions (heap allocation, `pipe`, `write`,
`read`, `select`, thread join) are modelled as explicit parameters describing
the outcome the environment produced, so every operation is a pure function
of the device state and those outcomes.
-/

def NO_ERROR : Nat := 0

def EINVAL : Nat := 22

def ENOMEM : Nat := 12

/-- v4l2_fourcc of the planar YVU 4:2:0 format: the fourcc code of letters YV12. -/
def V4L2_PIX_FMT_YVU420 : Nat := 0x32315659

/-- Device lifecycle state. `ECDS_CONSTRUCTED` and `ECDS_INITIALIZED` appear in the
source; the capturing states come from the spec's state machine
(`Constructed → Initialized → (Started ↔ Stopped)`), since the header declaring the
enum is not part of the sources. -/
inductive ECDState where
  | ECDS_CONSTRUCTED
  | ECDS_INITIALIZED
  | ECDS_STARTED
  | ECDS_STOPPED
deriving DecidableEq, Repr

/-- State of an `EmulatedCameraDevice` object: the members of the C++ class that the
embedded operations read or write. `mCurrentFrame` is the framebuffer (a byte list,
`none` for a NULL pointer); `mFrameUOffset`/`mFrameVOffset` model the `mFrameU`/`mFrameV`
pane pointers as offsets from `mCurrentFrame`. `workerThreadCreated` models
`mWorkerThread != NULL`, and `workerCreations` counts how many worker-thread controller
objects have been instantiated over the object's lifetime. -/
structure EmulatedCameraDevice where
  mState : ECDState
  mCurrentFrame : Option (List Nat)
  mFrameBufferSize : Nat
  mFrameWidth : Nat
  mFrameHeight : Nat
  mPixelFormat : Nat
  mTotalPixels : Nat
  mFrameUOffset : Nat
  mFrameVOffset : Nat
  workerThreadCreated : Bool
  workerCreations : Nat
deriving DecidableEq, Repr

/-- A device fresh out of the constructor: `mState = ECDS_CONSTRUCTED`,
`mCurrentFrame = NULL`, no worker-thread object. -/
def EmulatedCameraDevice.constructed : EmulatedCameraDevice :=
  { mState := .ECDS_CONSTRUCTED
    mCurrentFrame := none
    mFrameBufferSize := 0
    mFrameWidth := 0
    mFrameHeight := 0
    mPixelFormat := 0
    mTotalPixels := 0
    mFrameUOffset := 0
    mFrameVOffset := 0
    workerThreadCreated := false
    workerCreations := 0 }

/-- Modelled from the spec: `isInitialized()` is declared in the header (not among the
sources); per the spec's state machine every state past `Constructed` counts as
initialized. -/
def EmulatedCameraDevice.isInitialized (d : EmulatedCameraDevice) : Bool :=
  d.mState != .ECDS_CONSTRUCTED

/-- Modelled from the spec: `isCapturing()` is declared in the header (not among the
sources); per the spec the capturing sub-state is exactly the `Started` state. -/
def EmulatedCameraDevice.isCapturing (d : EmulatedCameraDevice) : Bool :=
  d.mState == .ECDS_STARTED

/-- Modelled from the spec: `startDevice()` is the pure-virtual device-specific start
hook (external collaborator). It returns the status the concrete capture source
produced (`hookRes` parameter); on success the device enters the capturing state, on
failure the state is unchanged. -/
def EmulatedCameraDevice.startDevice (d : EmulatedCameraDevice) (hookRes : Nat) :
    Nat × EmulatedCameraDevice :=
  if hookRes = NO_ERROR then (hookRes, { d with mState := .ECDS_STARTED })
  else (hookRes, d)

/-- Modelled from the spec: `stopDevice()` is the pure-virtual device-specific stop
hook (external collaborator). On success the device leaves the capturing state, on
failure the state is unchanged. -/
def EmulatedCameraDevice.stopDevice (d : EmulatedCameraDevice) (hookRes : Nat) :
    Nat × EmulatedCameraDevice :=
  if hookRes = NO_ERROR then (hookRes, { d with mState := .ECDS_STOPPED })
  else (hookRes, d)

/-- `EmulatedCameraDevice::Initialize`. `allocWorkerOk` tells whether
`new WorkerThread(this)` produced an object (the code checks the result against NULL). -/
def EmulatedCameraDevice.Initialize (d : EmulatedCameraDevice) (allocWorkerOk : Bool) :
    Nat × EmulatedCameraDevice :=
  if d.isInitialized then
    (NO_ERROR, d)
  else if allocWorkerOk then
    (NO_ERROR, { d with workerThreadCreated := true
                        workerCreations := d.workerCreations + 1
                        mState := .ECDS_INITIALIZED })
  else
    (ENOMEM, { d with workerThreadCreated := false })

/-- `EmulatedCameraDevice::startCapturing`. `alloc` is the heap: given the requested
byte count it returns the allocated buffer, or `none` when `new uint8_t[...]` yields
NULL. `hookRes` is the status of the `startDevice()` collaborator. -/
def EmulatedCameraDevice.startCapturing (d : EmulatedCameraDevice)
    (width height pix_fmt : Nat) (alloc : Nat → Option (List Nat)) (hookRes : Nat) :
    Nat × EmulatedCameraDevice :=
  /- Validate pixel format, and calculate framebuffer size at the same time. -/
  if pix_fmt = V4L2_PIX_FMT_YVU420 then
    let sized := { d with mFrameBufferSize := width * height * 12 / 8 }
    /- Cache framebuffer info. -/
    let cached := { sized with mFrameWidth := width
                               mFrameHeight := height
                               mPixelFormat := pix_fmt
                               mTotalPixels := width * height }
    /- Allocate framebuffer. -/
    match alloc cached.mFrameBufferSize with
    | none => (ENOMEM, { cached with mCurrentFrame := none })
    | some buf =>
      /- Calculate U/V panes inside the framebuffer. -/
      let withBuf := { cached with
                         mCurrentFrame := some buf
                         mFrameUOffset := cached.mTotalPixels
                         mFrameVOffset := cached.mTotalPixels + cached.mTotalPixels / 4 }
      /- Start the camera. -/
      let (res, started) := withBuf.startDevice hookRes
      if res = NO_ERROR then (res, started)
      else (res, { started with mCurrentFrame := none })
  else
    (EINVAL, d)

/-- `EmulatedCameraDevice::stopCapturing`. `hookRes` is the status of the
`stopDevice()` collaborator. -/
def EmulatedCameraDevice.stopCapturing (d : EmulatedCameraDevice) (hookRes : Nat) :
    Nat × EmulatedCameraDevice :=
  let (res, stopped) := d.stopDevice hookRes
  if res = NO_ERROR then
    (res, { stopped with mCurrentFrame := none })
  else
    (res, stopped)

/-- `EmulatedCameraDevice::getCurrentFrame`. Returns the status, the bytes `memcpy`
copied into the caller's buffer (`none` when nothing is copied), and the device
afterwards. `memcpy(buffer, mCurrentFrame, mFrameBufferSize)` copies exactly
`mFrameBufferSize` bytes from the start of the framebuffer. -/
def EmulatedCameraDevice.getCurrentFrame (d : EmulatedCameraDevice) :
    Nat × Option (List Nat) × EmulatedCameraDevice :=
  if d.isCapturing = false ∨ d.mCurrentFrame = none then
    (EINVAL, none, d)
  else
    (NO_ERROR, some ((d.mCurrentFrame.getD []).take d.mFrameBufferSize), d)

/-- State of a `WorkerThread` object: the two thread-control file descriptors
(`-1` when closed) and whether the spawned thread of control is alive. -/
structure WorkerThread where
  mThreadControl : Int
  mControlFD : Int
  running : Bool
deriving DecidableEq, Repr

/-- A worker thread object fresh out of the constructor: both FDs invalid. -/
def WorkerThread.constructed : WorkerThread :=
  { mThreadControl := -1, mControlFD := -1, running := false }

/-- The control-message enum: `THREAD_STOP` is its only value. -/
def THREAD_STOP : Nat := 0

/-- `sizeof(ControlMessage)`: the byte size of the enum, as `write`/`read` see it. -/
def sizeofControlMessage : Int := 4

/-- `EmulatedCameraDevice::WorkerThread::readyToRun`. `pipeRes` is the outcome of
`pipe(thread_fds)`: `Except.ok (rd, wr)` with the two new descriptors on success
(`thread_fds[0]` the read end, `thread_fds[1]` the write end), `Except.error errno`
on failure. -/
def WorkerThread.readyToRun (w : WorkerThread) (pipeRes : Except Nat (Int × Int)) :
    Nat × WorkerThread :=
  match pipeRes with
  | .ok (rd, wr) =>
    (NO_ERROR, { w with mThreadControl := wr, mControlFD := rd })
  | .error e => (e, w)

/-- Modelled from the spec: `startThread()` is declared in the header (not among the
sources). It spawns the loop on a separate thread of control, which runs
`readyToRun` before entering the loop; failure to create the signaling pair aborts
the start. -/
def WorkerThread.startThread (w : WorkerThread) (pipeRes : Except Nat (Int × Int)) :
    Nat × WorkerThread :=
  let (res, started) := w.readyToRun pipeRes
  if res = NO_ERROR then (res, { started with running := true })
  else (res, started)

/-- `EmulatedCameraDevice::WorkerThread::stopThread`. `writeRes` is what
`write(mThreadControl, &msg, sizeof(msg))` returned (bytes written, or `-1`),
`writeErrno` the accompanying `errno`, and `joinRes` the status of
`requestExitAndWait()` (the join with the spawned thread). -/
def WorkerThread.stopThread (w : WorkerThread) (writeRes : Int) (writeErrno : Nat)
    (joinRes : Nat) : Nat × WorkerThread :=
  if w.mThreadControl ≥ 0 then
    if writeRes = sizeofControlMessage then
      if joinRes = NO_ERROR then
        (NO_ERROR,
         { w with
             mThreadControl := -1
             mControlFD := if w.mControlFD ≥ 0 then -1 else w.mControlFD
             running := false })
      else
        (joinRes, w)
    else
      ((if writeErrno ≠ 0 then writeErrno else EINVAL), w)
  else
    (EINVAL, w)

/-- `EmulatedCameraDevice::startWorkerThread`. -/
def EmulatedCameraDevice.startWorkerThread (d : EmulatedCameraDevice) (w : WorkerThread)
    (pipeRes : Except Nat (Int × Int)) : Nat × EmulatedCameraDevice × WorkerThread :=
  if d.isInitialized = false then
    (EINVAL, d, w)
  else
    let (res, started) := w.startThread pipeRes
    (res, d, started)

/-- `EmulatedCameraDevice::stopWorkerThread`. Note that the code discards the status
`stopThread()` returns and yields `NO_ERROR`. -/
def EmulatedCameraDevice.stopWorkerThread (d : EmulatedCameraDevice) (w : WorkerThread)
    (writeRes : Int) (writeErrno : Nat) (joinRes : Nat) :
    Nat × EmulatedCameraDevice × WorkerThread :=
  if d.isInitialized = false then
    (EINVAL, d, w)
  else
    let (_, stopped) := w.stopThread writeRes writeErrno joinRes
    (NO_ERROR, d, stopped)

/-- Result of `WorkerThread::Select`. -/
inductive SelectRes where
  | TIMEOUT
  | ERROR
  | READY
  | EXIT_THREAD
deriving DecidableEq, Repr

/-- Outcome the operating system produced for the `select(2)` call inside
`WorkerThread::Select`, together with the outcome of the subsequent `read` when the
control descriptor is the ready one: `selErr` is a failing `select` (negative
return), `selTimeout` a zero return, `selControlReady rd msg` a positive return with
`mControlFD` set in the fd set (`rd` is what `read` then returned and `msg` the
message value it delivered), and `selFdReady` a positive return with only the
caller-supplied descriptor set. -/
inductive SelectOutcome where
  | selErr
  | selTimeout
  | selControlReady (rd : Int) (msg : Nat)
  | selFdReady
deriving DecidableEq, Repr

/-- The `timeval*` passed to `select`: the code builds a `timeval` and passes its
address only when `timeout` is nonzero (`if (timeout) { ... tvp = &tv; }`); otherwise
`tvp` stays NULL. -/
def selectTimeoutPtr (timeout : Nat) : Option (Nat × Nat) :=
  if timeout ≠ 0 then some (timeout / 1000000, timeout % 1000000) else none

/-- POSIX contract of `select(2)`: a zero return (timeout elapsed) can only happen
when a non-NULL timeout pointer was supplied; with a NULL pointer `select` blocks
indefinitely until a descriptor is ready or an error occurs. -/
def SelectOutcomeValid (tvp : Option (Nat × Nat)) (o : SelectOutcome) : Prop :=
  o = .selTimeout → tvp.isSome = true

/-- `EmulatedCameraDevice::WorkerThread::Select`, as a function of the OS outcome. -/
def WorkerThread.Select (o : SelectOutcome) : SelectRes :=
  match o with
  | .selErr => .ERROR
  | .selTimeout => .TIMEOUT
  | .selControlReady rd msg =>
    if rd ≠ sizeofControlMessage then .ERROR
    else if msg = THREAD_STOP then .EXIT_THREAD
    else .ERROR
  | .selFdReady => .READY

/-! ## Concrete states used by witnesses and counterexamples -/

/-- A device right after a successful `Initialize()`. -/
def initializedDevice : EmulatedCameraDevice :=
  { EmulatedCameraDevice.constructed with
      mState := .ECDS_INITIALIZED
      workerThreadCreated := true
      workerCreations := 1 }

/-- A 2x2 YV12 device in the capturing state with a live framebuffer. -/
def capturingDevice : EmulatedCameraDevice :=
  { initializedDevice with
      mState := .ECDS_STARTED
      mCurrentFrame := some (List.replicate 6 0)
      mFrameBufferSize := 6
      mFrameWidth := 2
      mFrameHeight := 2
      mPixelFormat := V4L2_PIX_FMT_YVU420
      mTotalPixels := 4
      mFrameUOffset := 4
      mFrameVOffset := 5 }

/-- A worker thread whose signaling endpoints are open. -/
def openWorker : WorkerThread :=
  { mThreadControl := 4, mControlFD := 3, running := true }

/-- Both signaling endpoints open, or both closed (an FD is open iff it is `≥ 0`). -/
def WorkerThread.endpointInvariant (w : WorkerThread) : Prop :=
  (w.mThreadControl ≥ 0 ∧ w.mControlFD ≥ 0) ∨ (w.mThreadControl < 0 ∧ w.mControlFD < 0)

instance (w : WorkerThread) : Decidable w.endpointInvariant := by
  unfold WorkerThread.endpointInvariant
  infer_instance

/-! ## Claims -/

/-- C2: `WorkerThread::Select` returns `ERROR` when the underlying `select` fails,
`TIMEOUT` when the wait elapses with no source ready, and — when the control endpoint
is ready — reads exactly one control message, yielding `EXIT_THREAD` for a `STOP`
message but `ERROR` for a read of unexpected size or any non-`STOP` value; otherwise
(the caller-supplied descriptor is ready) it returns `READY`. -/
theorem Select_spec (rd : Int) (msg : Nat) :
    WorkerThread.Select .selErr = .ERROR ∧
    WorkerThread.Select .selTimeout = .TIMEOUT ∧
    WorkerThread.Select (.selControlReady rd msg) =
      (if rd ≠ sizeofControlMessage then .ERROR
       else if msg = THREAD_STOP then .EXIT_THREAD
       else .ERROR) ∧
    WorkerThread.Select .selFdReady = .READY :=
  ⟨rfl, rfl, rfl, rfl⟩

/-- C10: in `WorkerThread::Select` a `timeout` argument of `0` leaves the `timeval`
pointer NULL, so by the `select(2)` contract the wait blocks indefinitely instead of
returning immediately, and the `TIMEOUT` result is impossible with a zero timeout. -/
theorem Select_zero_timeout_blocks (o : SelectOutcome)
    (h : SelectOutcomeValid (selectTimeoutPtr 0) o) :
    selectTimeoutPtr 0 = none ∧ WorkerThread.Select o ≠ .TIMEOUT := by
  refine ⟨rfl, ?_⟩
  intro hc
  cases o with
  | selErr => exact SelectRes.noConfusion hc
  | selTimeout =>
    have hs := h rfl
    simp [selectTimeoutPtr] at hs
  | selControlReady rd msg =>
    simp only [WorkerThread.Select] at hc
    split at hc
    · exact SelectRes.noConfusion hc
    · split at hc
      · exact SelectRes.noConfusion hc
      · exact SelectRes.noConfusion hc
  | selFdReady => exact SelectRes.noConfusion hc

/-- Witness for C10 at the concrete outcome `selFdReady`. -/
theorem Select_zero_timeout_blocks_witness :
    SelectOutcomeValid (selectTimeoutPtr 0) .selFdReady ∧
    (selectTimeoutPtr 0 = none ∧ WorkerThread.Select .selFdReady ≠ .TIMEOUT) :=
  ⟨fun hx => SelectOutcome.noConfusion hx,
   Select_zero_timeout_blocks .selFdReady (fun hx => SelectOutcome.noConfusion hx)⟩

/-- C7: for every width/height accepted by `startCapturing` with the supported planar
YUV 4:2:0 format (validation passed and the framebuffer was allocated), the computed
byte size is `width*height*12/8`, the first chroma pane starts at offset
`width*height`, and the second at `width*height + width*height/4`, in exact integer
arithmetic. -/
theorem startCapturing_layout (d : EmulatedCameraDevice)
    (width height hookRes : Nat) (alloc : Nat → Option (List Nat)) (buf : List Nat)
    (halloc : alloc (width * height * 12 / 8) = some buf) :
    (d.startCapturing width height V4L2_PIX_FMT_YVU420 alloc hookRes).2.mFrameBufferSize
        = width * height * 12 / 8 ∧
    (d.startCapturing width height V4L2_PIX_FMT_YVU420 alloc hookRes).2.mFrameUOffset
        = width * height ∧
    (d.startCapturing width height V4L2_PIX_FMT_YVU420 alloc hookRes).2.mFrameVOffset
        = width * height + width * height / 4 := by
  unfold EmulatedCameraDevice.startCapturing
  rw [if_pos rfl]
  simp only [halloc]
  by_cases hr : hookRes = NO_ERROR <;>
    simp [EmulatedCameraDevice.startDevice, hr]

/-- Witness for C7: a 2x2 frame gives byte size 6, pane offsets 4 and 5. -/
theorem startCapturing_layout_witness :
    (fun n => some (List.replicate n 0)) (2 * 2 * 12 / 8)
        = some (List.replicate 6 (0 : Nat)) ∧
    ((EmulatedCameraDevice.constructed.startCapturing 2 2 V4L2_PIX_FMT_YVU420
        (fun n => some (List.replicate n 0)) NO_ERROR).2.mFrameBufferSize
        = 2 * 2 * 12 / 8 ∧
     (EmulatedCameraDevice.constructed.startCapturing 2 2 V4L2_PIX_FMT_YVU420
        (fun n => some (List.replicate n 0)) NO_ERROR).2.mFrameUOffset = 2 * 2 ∧
     (EmulatedCameraDevice.constructed.startCapturing 2 2 V4L2_PIX_FMT_YVU420
        (fun n => some (List.replicate n 0)) NO_ERROR).2.mFrameVOffset
        = 2 * 2 + 2 * 2 / 4) :=
  ⟨rfl, startCapturing_layout EmulatedCameraDevice.constructed 2 2 NO_ERROR
      (fun n => some (List.replicate n 0)) (List.replicate 6 0) rfl⟩

/-- C5: `stopCapturing` frees the framebuffer and clears the capturing state exactly
when the device-specific stop hook succeeds; on hook failure the buffer is retained,
the device is left entirely as-is, and the hook's status is returned unchanged. -/
theorem stopCapturing_spec (d : EmulatedCameraDevice) (hookRes : Nat) :
    (hookRes = NO_ERROR →
       d.stopCapturing hookRes =
         (NO_ERROR, { d with mState := .ECDS_STOPPED, mCurrentFrame := none }) ∧
       (d.stopCapturing hookRes).2.isCapturing = false ∧
       (d.stopCapturing hookRes).2.mCurrentFrame = none) ∧
    (hookRes ≠ NO_ERROR →
       d.stopCapturing hookRes = (hookRes, d)) := by
  constructor <;> intro h <;>
    simp [EmulatedCameraDevice.stopCapturing, EmulatedCameraDevice.stopDevice,
          EmulatedCameraDevice.isCapturing, h]

/-- Witness for C5: a failing stop hook (status 5) leaves the capturing device
untouched and propagates 5. -/
theorem stopCapturing_spec_witness :
    (5 : Nat) ≠ NO_ERROR ∧ capturingDevice.stopCapturing 5 = (5, capturingDevice) :=
  ⟨by decide, (stopCapturing_spec capturingDevice 5).2 (by decide)⟩

/-- C6: `getCurrentFrame` fails with `EINVAL` exactly when the device is not
capturing or the framebuffer is NULL (copying nothing and changing nothing);
otherwise it copies exactly `mFrameBufferSize` bytes, identical to the framebuffer
content, returns `NO_ERROR`, and leaves the device unchanged. -/
theorem getCurrentFrame_spec (d : EmulatedCameraDevice) :
    (d.getCurrentFrame.1 = EINVAL ↔
       d.isCapturing = false ∨ d.mCurrentFrame = none) ∧
    (d.isCapturing = false ∨ d.mCurrentFrame = none →
       d.getCurrentFrame = (EINVAL, none, d)) ∧
    (∀ buf, d.mCurrentFrame = some buf → d.isCapturing = true →
       buf.length = d.mFrameBufferSize →
       d.getCurrentFrame = (NO_ERROR, some buf, d)) := by
  refine ⟨?_, ?_, ?_⟩
  · unfold EmulatedCameraDevice.getCurrentFrame
    split
    · simp_all
    · simp_all [EINVAL, NO_ERROR]
  · intro h
    simp [EmulatedCameraDevice.getCurrentFrame, h]
  · intro buf hbuf hcap hlen
    have hcond : ¬(d.isCapturing = false ∨ d.mCurrentFrame = none) := by
      simp [hcap, hbuf]
    simp [EmulatedCameraDevice.getCurrentFrame, hcond, hbuf, hcap, ← hlen]

/-- Witness for C6: reading the current frame of the concrete capturing device
returns its 6-byte buffer verbatim. -/
theorem getCurrentFrame_spec_witness :
    capturingDevice.mCurrentFrame = some (List.replicate 6 0) ∧
    capturingDevice.getCurrentFrame
      = (NO_ERROR, some (List.replicate 6 0), capturingDevice) :=
  ⟨rfl, (getCurrentFrame_spec capturingDevice).2.2 (List.replicate 6 0)
      rfl (by decide) (by decide)⟩

/-- C9: `Initialize` is idempotent — starting from an uninitialized device, the first
call (with the controller allocation succeeding) returns success, a second call is a
no-op that also returns success, and over the two calls exactly one worker-thread
controller object is created. -/
theorem Initialize_idempotent (d : EmulatedCameraDevice) (ok2 : Bool)
    (h : d.isInitialized = false) :
    (d.Initialize true).1 = NO_ERROR ∧
    (d.Initialize true).2.Initialize ok2 = (NO_ERROR, (d.Initialize true).2) ∧
    (d.Initialize true).2.workerCreations = d.workerCreations + 1 := by
  simp [EmulatedCameraDevice.Initialize, EmulatedCameraDevice.isInitialized] at h ⊢
  simp [h]

/-- Witness for C9 on the freshly constructed device. -/
theorem Initialize_idempotent_witness :
    EmulatedCameraDevice.constructed.isInitialized = false ∧
    ((EmulatedCameraDevice.constructed.Initialize true).1 = NO_ERROR ∧
     (EmulatedCameraDevice.constructed.Initialize true).2.Initialize false
        = (NO_ERROR, (EmulatedCameraDevice.constructed.Initialize true).2) ∧
     (EmulatedCameraDevice.constructed.Initialize true).2.workerCreations
        = EmulatedCameraDevice.constructed.workerCreations + 1) :=
  ⟨by decide, Initialize_idempotent EmulatedCameraDevice.constructed false (by decide)⟩

/-- C8: from a state where the signaling endpoints respect the both-open-or-both-closed
invariant, `startThread` (with `pipe` delivering nonnegative descriptors on success)
and `stopThread` preserve the invariant, and whenever `stopThread` reports success
both endpoints are closed and invalidated. -/
theorem workerThread_endpoint_invariant (w : WorkerThread)
    (hw : w.endpointInvariant)
    (pipeRes : Except Nat (Int × Int))
    (hpipe : ∀ rd wr, pipeRes = .ok (rd, wr) → 0 ≤ rd ∧ 0 ≤ wr)
    (writeRes : Int) (writeErrno joinRes : Nat) :
    (w.startThread pipeRes).2.endpointInvariant ∧
    (w.stopThread writeRes writeErrno joinRes).2.endpointInvariant ∧
    ((w.stopThread writeRes writeErrno joinRes).1 = NO_ERROR →
       (w.stopThread writeRes writeErrno joinRes).2.mThreadControl < 0 ∧
       (w.stopThread writeRes writeErrno joinRes).2.mControlFD < 0) := by
  refine ⟨?_, ?_, ?_⟩
  · match hp : pipeRes with
    | .ok (rd, wr) =>
      have hfd := hpipe rd wr rfl
      simp [WorkerThread.startThread, WorkerThread.readyToRun,
            WorkerThread.endpointInvariant]
      omega
    | .error e =>
      simp only [WorkerThread.startThread, WorkerThread.readyToRun]
      split <;> simpa [WorkerThread.endpointInvariant] using hw
  · by_cases h1 : w.mThreadControl ≥ 0
    · by_cases h2 : writeRes = sizeofControlMessage
      · by_cases h3 : joinRes = NO_ERROR
        · simp [WorkerThread.stopThread, WorkerThread.endpointInvariant, h1, h2, h3]
          split <;> omega
        · simpa [WorkerThread.stopThread, h1, h2, h3] using hw
      · simpa [WorkerThread.stopThread, h1, h2] using hw
    · simpa [WorkerThread.stopThread, h1] using hw
  · intro hres
    by_cases h1 : w.mThreadControl ≥ 0
    · by_cases h2 : writeRes = sizeofControlMessage
      · by_cases h3 : joinRes = NO_ERROR
        · simp [WorkerThread.stopThread, h1, h2, h3]
          split <;> omega
        · exfalso
          simp [WorkerThread.stopThread, h1, h2, h3] at hres
      · exfalso
        simp [WorkerThread.stopThread, h1, h2] at hres
        split at hres <;> simp_all [EINVAL, NO_ERROR]
    · exfalso
      simp [WorkerThread.stopThread, h1] at hres
      simp [EINVAL, NO_ERROR] at hres

/-- Witness for C8: the open worker with a successful pipe, write and join. -/
theorem workerThread_endpoint_invariant_witness :
    openWorker.endpointInvariant ∧
    ((openWorker.startThread (.ok (3, 4))).2.endpointInvariant ∧
     (openWorker.stopThread 4 0 NO_ERROR).2.endpointInvariant ∧
     ((openWorker.stopThread 4 0 NO_ERROR).1 = NO_ERROR →
        (openWorker.stopThread 4 0 NO_ERROR).2.mThreadControl < 0 ∧
        (openWorker.stopThread 4 0 NO_ERROR).2.mControlFD < 0)) :=
  ⟨by decide,
   workerThread_endpoint_invariant openWorker (by decide) (.ok (3, 4))
     (by intro rd wr hx
         cases hx
         exact ⟨by decide, by decide⟩)
     4 0 NO_ERROR⟩

/-- Counterexample to C1: on a device that was never initialized, `startCapturing`
with the supported format (a succeeding allocation and start hook) returns `NO_ERROR`
rather than `EINVAL` and allocates a framebuffer — `startCapturing` performs no
initialization check. -/
theorem startCapturing_before_init_counterexample :
    EmulatedCameraDevice.constructed.isInitialized = false ∧
    (EmulatedCameraDevice.constructed.startCapturing 2 2 V4L2_PIX_FMT_YVU420
        (fun n => some (List.replicate n 0)) NO_ERROR).1 = NO_ERROR ∧
    (EmulatedCameraDevice.constructed.startCapturing 2 2 V4L2_PIX_FMT_YVU420
        (fun n => some (List.replicate n 0)) NO_ERROR).1 ≠ EINVAL ∧
    (EmulatedCameraDevice.constructed.startCapturing 2 2 V4L2_PIX_FMT_YVU420
        (fun n => some (List.replicate n 0)) NO_ERROR).2.mCurrentFrame
      = some (List.replicate 6 0) := by
  refine ⟨rfl, rfl, by decide, rfl⟩

/-- C1 (amended): of the capture/control operations invoked before `Initialize()`,
`getCurrentFrame`, `startWorkerThread` and `stopWorkerThread` fail with `EINVAL` and
perform no side effects; `startCapturing` and `stopCapturing` carry no
initialization check. -/
theorem pre_init_gated_ops (d : EmulatedCameraDevice) (w : WorkerThread)
    (h : d.mState = .ECDS_CONSTRUCTED)
    (pipeRes : Except Nat (Int × Int)) (writeRes : Int) (writeErrno joinRes : Nat) :
    d.getCurrentFrame = (EINVAL, none, d) ∧
    d.startWorkerThread w pipeRes = (EINVAL, d, w) ∧
    d.stopWorkerThread w writeRes writeErrno joinRes = (EINVAL, d, w) := by
  refine ⟨?_, ?_, ?_⟩
  · simp [EmulatedCameraDevice.getCurrentFrame, EmulatedCameraDevice.isCapturing, h]
  · simp [EmulatedCameraDevice.startWorkerThread, EmulatedCameraDevice.isInitialized, h]
  · simp [EmulatedCameraDevice.stopWorkerThread, EmulatedCameraDevice.isInitialized, h]

/-- Witness for the amended C1 on the freshly constructed device. -/
theorem pre_init_gated_ops_witness :
    EmulatedCameraDevice.constructed.mState = .ECDS_CONSTRUCTED ∧
    (EmulatedCameraDevice.constructed.getCurrentFrame
        = (EINVAL, none, EmulatedCameraDevice.constructed) ∧
     EmulatedCameraDevice.constructed.startWorkerThread WorkerThread.constructed
        (.ok (3, 4))
        = (EINVAL, EmulatedCameraDevice.constructed, WorkerThread.constructed) ∧
     EmulatedCameraDevice.constructed.stopWorkerThread WorkerThread.constructed
        4 0 NO_ERROR
        = (EINVAL, EmulatedCameraDevice.constructed, WorkerThread.constructed)) :=
  ⟨rfl, pre_init_gated_ops EmulatedCameraDevice.constructed WorkerThread.constructed
      rfl (.ok (3, 4)) 4 0 NO_ERROR⟩

/-- Counterexample to C3: when writing the STOP message fails (write returned `-1`,
`errno = 32`), the internal `stopThread` computes the nonzero status `32`, but the
public `stopWorkerThread` discards it and returns `NO_ERROR` — the underlying error
is not surfaced to the caller. -/
theorem stopWorkerThread_swallows_error_counterexample :
    (openWorker.stopThread (-1) 32 NO_ERROR).1 = 32 ∧
    (initializedDevice.stopWorkerThread openWorker (-1) 32 NO_ERROR).1 = NO_ERROR ∧
    (initializedDevice.stopWorkerThread openWorker (-1) 32 NO_ERROR).1 ≠ 32 := by
  refine ⟨by decide, by decide, by decide⟩

/-- C3 (amended): if writing the STOP message fails during a stop request on an
initialized device with open endpoints, the internal `stopThread` returns the
underlying `errno` (or `EINVAL` when `errno` is 0) as a nonzero status and leaves the
worker presumed still running — endpoints open, no join — so the stop may be
retried; the public `stopWorkerThread`, however, discards that status and returns
`NO_ERROR`. -/
theorem stopThread_write_failure (d : EmulatedCameraDevice) (w : WorkerThread)
    (hinit : d.isInitialized = true) (hopen : w.mThreadControl ≥ 0)
    (writeRes : Int) (writeErrno joinRes : Nat)
    (hfail : writeRes ≠ sizeofControlMessage) :
    (w.stopThread writeRes writeErrno joinRes).1
        = (if writeErrno ≠ 0 then writeErrno else EINVAL) ∧
    (w.stopThread writeRes writeErrno joinRes).1 ≠ NO_ERROR ∧
    (w.stopThread writeRes writeErrno joinRes).2 = w ∧
    d.stopWorkerThread w writeRes writeErrno joinRes
        = (NO_ERROR, d, w) := by
  have hst : w.stopThread writeRes writeErrno joinRes
      = ((if writeErrno ≠ 0 then writeErrno else EINVAL), w) := by
    simp [WorkerThread.stopThread, hopen, hfail]
  refine ⟨by rw [hst], ?_, by rw [hst], ?_⟩
  · rw [hst]
    split <;> simp_all [EINVAL, NO_ERROR]
  · simp [EmulatedCameraDevice.stopWorkerThread, hinit, hst]

/-- Witness for the amended C3: write failure with `errno = 32` on the open worker. -/
theorem stopThread_write_failure_witness :
    initializedDevice.isInitialized = true ∧
    openWorker.mThreadControl ≥ 0 ∧
    (-1 : Int) ≠ sizeofControlMessage ∧
    ((openWorker.stopThread (-1) 32 NO_ERROR).1
        = (if (32 : Nat) ≠ 0 then 32 else EINVAL) ∧
     (openWorker.stopThread (-1) 32 NO_ERROR).1 ≠ NO_ERROR ∧
     (openWorker.stopThread (-1) 32 NO_ERROR).2 = openWorker ∧
     initializedDevice.stopWorkerThread openWorker (-1) 32 NO_ERROR
        = (NO_ERROR, initializedDevice, openWorker)) :=
  ⟨by decide, by decide, by decide,
   stopThread_write_failure initializedDevice openWorker (by decide) (by decide)
     (-1) 32 NO_ERROR (by decide)⟩

/-- Counterexample to C4: on an initialized device whose cached width is 0, a failing
`startCapturing` (allocation returns NULL) leaves the cached width at 4, not at its
pre-call value — the cached dimensions/format are updated before allocation and are
not restored on failure. -/
theorem startCapturing_failure_counterexample :
    initializedDevice.mFrameWidth = 0 ∧
    (initializedDevice.startCapturing 4 2 V4L2_PIX_FMT_YVU420
        (fun _ => none) NO_ERROR).1 = ENOMEM ∧
    (initializedDevice.startCapturing 4 2 V4L2_PIX_FMT_YVU420
        (fun _ => none) NO_ERROR).2.mFrameWidth = 4 := by
  refine ⟨rfl, rfl, rfl⟩

/-- C4 (amended): whenever `startCapturing` fails after pixel-format validation —
allocation failure (reported as `ENOMEM`) or start-hook failure (whose status is
propagated unchanged) — any allocated buffer is freed, the device ends with no live
buffer and its capturing flag and lifecycle state unchanged (so still not
capturing), but the cached dimensions/format/pixel-count/byte-size are updated to
the requested values rather than restored. -/
theorem startCapturing_failure_unwind (d : EmulatedCameraDevice)
    (width height hookRes : Nat) (alloc : Nat → Option (List Nat)) :
    (alloc (width * height * 12 / 8) = none →
       d.startCapturing width height V4L2_PIX_FMT_YVU420 alloc hookRes =
         (ENOMEM, { d with
                      mFrameBufferSize := width * height * 12 / 8
                      mFrameWidth := width
                      mFrameHeight := height
                      mPixelFormat := V4L2_PIX_FMT_YVU420
                      mTotalPixels := width * height
                      mCurrentFrame := none })) ∧
    (∀ buf, alloc (width * height * 12 / 8) = some buf → hookRes ≠ NO_ERROR →
       d.startCapturing width height V4L2_PIX_FMT_YVU420 alloc hookRes =
         (hookRes, { d with
                       mFrameBufferSize := width * height * 12 / 8
                       mFrameWidth := width
                       mFrameHeight := height
                       mPixelFormat := V4L2_PIX_FMT_YVU420
                       mTotalPixels := width * height
                       mFrameUOffset := width * height
                       mFrameVOffset := width * height + width * height / 4
                       mCurrentFrame := none })) ∧
    ((d.startCapturing width height V4L2_PIX_FMT_YVU420 alloc hookRes).1 ≠ NO_ERROR →
       (d.startCapturing width height V4L2_PIX_FMT_YVU420 alloc hookRes).2.mState
           = d.mState ∧
       (d.startCapturing width height V4L2_PIX_FMT_YVU420 alloc hookRes).2.isCapturing
           = d.isCapturing ∧
       (d.startCapturing width height V4L2_PIX_FMT_YVU420 alloc hookRes).2.mCurrentFrame
           = none) := by
  refine ⟨?_, ?_, ?_⟩
  · intro hnone
    unfold EmulatedCameraDevice.startCapturing
    rw [if_pos rfl]
    simp only [hnone]
  · intro buf hsome hr
    unfold EmulatedCameraDevice.startCapturing
    rw [if_pos rfl]
    simp only [hsome]
    simp [EmulatedCameraDevice.startDevice, hr]
  · intro hfail
    unfold EmulatedCameraDevice.startCapturing at hfail ⊢
    rw [if_pos rfl] at hfail ⊢
    match hsome : alloc (width * height * 12 / 8) with
    | none =>
      simp only [hsome] at hfail ⊢
      simp [EmulatedCameraDevice.isCapturing]
    | some buf =>
      simp only [hsome] at hfail ⊢
      by_cases hr : hookRes = NO_ERROR
      · exfalso
        simp [EmulatedCameraDevice.startDevice, hr] at hfail
      · simp [EmulatedCameraDevice.startDevice, hr,
              EmulatedCameraDevice.isCapturing]

/-- Witness for the amended C4 on the allocation-failure branch. -/
theorem startCapturing_failure_unwind_witness :
    ((fun _ => none) : Nat → Option (List Nat)) (4 * 2 * 12 / 8) = none ∧
    initializedDevice.startCapturing 4 2 V4L2_PIX_FMT_YVU420
        (fun _ => none) NO_ERROR =
      (ENOMEM, { initializedDevice with
                   mFrameBufferSize := 4 * 2 * 12 / 8
                   mFrameWidth := 4
                   mFrameHeight := 2
                   mPixelFormat := V4L2_PIX_FMT_YVU420
                   mTotalPixels := 4 * 2
                   mCurrentFrame := none }) :=
  ⟨rfl, (startCapturing_failure_unwind initializedDevice 4 2 NO_ERROR
      (fun _ => none)).1 rfl⟩
